import Mathlib

/-!
Shallow embedding of the weather-dashboard temporal data-aggregation engine:
the color-rule evaluator (`matchesRule`, `getColorForValue` in
src/store/dashboardStore.js), the time-window aggregation and synthetic
fallback (`calculateCurrentValue`, `generateMockData`, `fetchWeatherData` in
the useOpenMeteo hook), the TTL weather cache (`cacheWeatherData`,
`getCachedWeatherData`), the timeline stepping and jumping operations
(useTimelineState and the TimelineSlider component), and the refresh
pipeline's result application (usePolygons).  Numbers are rationals, times
are rationals (milliseconds) for the data path and integers (whole hours
relative to the current instant) for the timeline, and JavaScript's
`Math.round(x * 10) / 10` is floor-based half-up rounding.
-/

/-- A color rule as stored in the dashboard store: a loosely-typed record
with a primary comparison, an optional secondary comparison and an output
color (dashboardStore.js, shape of the `colorRules` entries).
`operator2 = some ""` models a present-but-empty string, which is falsy in
the source. -/
structure ColorRule where
  operator : String
  value : ℚ
  operator2 : Option String := none
  value2 : Option ℚ := none
  color : String
deriving DecidableEq

/-- A data source (metric) record from the store (dashboardStore.js 28-65). -/
structure DataSource where
  id : String
  name : String
  field : String
  unit : String
  colorRules : List ColorRule
deriving DecidableEq

/-- The primary `switch (operator)` block of `matchesRule`
(dashboardStore.js 230-249): `=` and `==` compare with exact numeric
equality, the four order operators compare exactly, and any other operator
string yields false (the `default` case). -/
def primaryOp (op : String) (value thr : ℚ) : Bool :=
  if op = "=" then value == thr
  else if op = "==" then value == thr
  else if op = "<" then decide (value < thr)
  else if op = "<=" then decide (value ≤ thr)
  else if op = ">" then decide (value > thr)
  else if op = ">=" then decide (value ≥ thr)
  else false

/-- The secondary `switch (operator2)` block of `matchesRule`
(dashboardStore.js 253-268): each recognised operator conjoins its
comparison with the primary result; an unrecognised operator leaves the
primary result unchanged (the `default: break`). `m0` stands for the
source's `matches` accumulator, a reserved word here. -/
def secondaryOp (op : String) (value thr : ℚ) (m0 : Bool) : Bool :=
  if op = "<" then m0 && decide (value < thr)
  else if op = "<=" then m0 && decide (value ≤ thr)
  else if op = ">" then m0 && decide (value > thr)
  else if op = ">=" then m0 && decide (value ≥ thr)
  else m0

/-- Translation of `matchesRule(value, rule)` (dashboardStore.js 225-272).
The compound clause is guarded by `matches && operator2 && value2 !== undefined`:
a missing or empty-string secondary operator, or a missing secondary
threshold, skips the secondary comparison entirely. -/
def matchesRule (value : ℚ) (rule : ColorRule) : Bool :=
  let m0 := primaryOp rule.operator value rule.value
  match rule.operator2, rule.value2 with
  | some o2, some v2 =>
      if m0 ∧ o2 ≠ "" then secondaryOp o2 value v2 m0 else m0
  | _, _ => m0

/-- `getDataSourceById(id)` (dashboardStore.js 193-195). -/
def getDataSourceById (dataSources : List DataSource) (id : String) :
    Option DataSource :=
  dataSources.find? (fun ds => ds.id == id)

/-- Translation of `getColorForValue(sourceId, value)`
(dashboardStore.js 197-210): default color `#666666` when the data source
is unknown or the value is null or undefined, otherwise the color of the
first rule in list order accepted by `matchesRule`, else the default. -/
def getColorForValue (dataSources : List DataSource) (sourceId : String)
    (value : Option ℚ) : String :=
  match getDataSourceById dataSources sourceId, value with
  | none, _ => "#666666"
  | some _, none => "#666666"
  | some dataSource, some v =>
      match dataSource.colorRules.find? (fun rule => matchesRule v rule) with
      | some rule => rule.color
      | none => "#666666"

/-- The temperature data source seeded in the store (dashboardStore.js 29-40). -/
def temperatureSource : DataSource :=
  { id := "temperature", name := "Temperature", field := "temperature_2m",
    unit := "°C",
    colorRules :=
      [ { operator := "<", value := 0, color := "#1890ff" },
        { operator := ">=", value := 0, operator2 := some "<",
          value2 := some 15, color := "#52c41a" },
        { operator := ">=", value := 15, operator2 := some "<",
          value2 := some 25, color := "#faad14" },
        { operator := ">=", value := 25, color := "#f5222d" } ] }

/-- The humidity data source seeded in the store (dashboardStore.js 41-52). -/
def humiditySource : DataSource :=
  { id := "humidity", name := "Humidity", field := "relativehumidity_2m",
    unit := "%",
    colorRules :=
      [ { operator := "<", value := 30, color := "#f5222d" },
        { operator := ">=", value := 30, operator2 := some "<",
          value2 := some 60, color := "#faad14" },
        { operator := ">=", value := 60, operator2 := some "<",
          value2 := some 80, color := "#52c41a" },
        { operator := ">=", value := 80, color := "#1890ff" } ] }

/-- The precipitation data source seeded in the store (dashboardStore.js 53-64). -/
def precipitationSource : DataSource :=
  { id := "precipitation", name := "Precipitation", field := "precipitation",
    unit := "mm",
    colorRules :=
      [ { operator := "=", value := 0, color := "#d9d9d9" },
        { operator := ">", value := 0, operator2 := some "<",
          value2 := some 1, color := "#91d5ff" },
        { operator := ">=", value := 1, operator2 := some "<",
          value2 := some 5, color := "#40a9ff" },
        { operator := ">=", value := 5, color := "#096dd9" } ] }

/-- The three data sources seeded in the store (dashboardStore.js 28-65). -/
def defaultDataSources : List DataSource :=
  [temperatureSource, humiditySource, precipitationSource]

/-- Spec-side primary comparison, following the spec's operator table
(operators `=`, `<`, `<=`, `>`, `>=`; the store also writes `==`): the
primary comparison of the value against the primary threshold, with exact
numeric equality. -/
def specPrimaryHolds (v : ℚ) (op : String) (thr : ℚ) : Bool :=
  if op = "=" ∨ op = "==" then v == thr
  else if op = "<" then decide (v < thr)
  else if op = "<=" then decide (v ≤ thr)
  else if op = ">" then decide (v > thr)
  else if op = ">=" then decide (v ≥ thr)
  else false

/-- Spec-side secondary comparison (operators `<`, `<=`, `>`, `>=`). -/
def specSecondaryHolds (v : ℚ) (op : String) (thr : ℚ) : Bool :=
  if op = "<" then decide (v < thr)
  else if op = "<=" then decide (v ≤ thr)
  else if op = ">" then decide (v > thr)
  else if op = ">=" then decide (v ≥ thr)
  else false

/-- Spec-side rule match, following the spec's words: the rule matches when
the primary comparison holds against the primary threshold and, if a
secondary operator is present, the secondary comparison holds against the
secondary threshold. -/
def specMatches (v : ℚ) (rule : ColorRule) : Bool :=
  specPrimaryHolds v rule.operator rule.value &&
    (match rule.operator2, rule.value2 with
     | some o2, some v2 => specSecondaryHolds v o2 v2
     | _, _ => true)

/-- A rule drawn from the spec's ColorRule data model: primary operator in
the documented set, and the secondary operator and threshold either both
absent or both present with a documented secondary operator. -/
def wellFormedRule (rule : ColorRule) : Bool :=
  ((["=", "==", "<", "<=", ">", ">="] : List String).contains rule.operator) &&
    (match rule.operator2, rule.value2 with
     | none, none => true
     | some o2, some _ => (["<", "<=", ">", ">="] : List String).contains o2
     | _, _ => false)

theorem matchesRule_eq_specMatches (v : ℚ) (rule : ColorRule)
    (h : wellFormedRule rule = true) : matchesRule v rule = specMatches v rule := by
  unfold wellFormedRule at h
  rcases h2 : rule.operator2 with _ | o2 <;> rcases hv2 : rule.value2 with _ | v2 <;>
    rw [h2, hv2] at h <;>
    simp only [Bool.and_eq_true, List.contains, List.elem_eq_mem,
      decide_eq_true_eq, List.mem_cons, List.not_mem_nil, or_false,
      Bool.false_eq_true, and_false, and_true] at h
  · simp only [matchesRule, specMatches, h2, hv2]
    rcases h with h | h | h | h | h | h <;>
      simp [h, primaryOp, specPrimaryHolds]
  · obtain ⟨hop, ho2⟩ := h
    simp only [matchesRule, specMatches, h2, hv2]
    rcases hop with h | h | h | h | h | h <;>
      rcases ho2 with h2o | h2o | h2o | h2o <;>
        by_cases hm : primaryOp rule.operator v rule.value = true <;>
          simp [h, h2o, primaryOp, secondaryOp, specPrimaryHolds,
            specSecondaryHolds] at hm ⊢ <;>
          simp [hm]

/-- JavaScript's `Math.round(x * 10) / 10`, used for every scalar the engine
returns: round half toward positive infinity, to one decimal place. -/
def round1 (x : ℚ) : ℚ := ((⌊x * 10 + 1 / 2⌋ : ℤ) : ℚ) / 10

theorem round1_mono {a b : ℚ} (h : a ≤ b) : round1 a ≤ round1 b := by
  unfold round1
  have hf : (⌊a * 10 + 1 / 2⌋ : ℤ) ≤ ⌊b * 10 + 1 / 2⌋ := by
    apply Int.floor_le_floor
    linarith
  have : ((⌊a * 10 + 1 / 2⌋ : ℤ) : ℚ) ≤ ((⌊b * 10 + 1 / 2⌋ : ℤ) : ℚ) := by
    exact_mod_cast hf
  linarith

theorem round1_tenth (z : ℤ) : round1 ((z : ℚ) / 10) = (z : ℚ) / 10 := by
  unfold round1
  have h1 : (z : ℚ) / 10 * 10 + 1 / 2 = (z : ℚ) + 1 / 2 := by ring
  rw [h1]
  have h2 : ⌊(z : ℚ) + 1 / 2⌋ = z + ⌊(1 : ℚ) / 2⌋ := Int.floor_int_add z (1 / 2)
  have h3 : ⌊(1 : ℚ) / 2⌋ = 0 := by norm_num
  rw [h2, h3, add_zero]

/-- The ranges of `generateMockData` (useOpenMeteo 120-132), keyed by the
data-source identifier, with `{min: 0, max: 100}` for unrecognised ones. -/
def mockRange (dataSourceId : String) : ℚ × ℚ :=
  if dataSourceId = "temperature" then (-10, 35)
  else if dataSourceId = "humidity" then (30, 90)
  else if dataSourceId = "precipitation" then (0, 20)
  else (0, 100)

/-- `generateMockData(dataSourceId)` (useOpenMeteo 120-132) with the
`Math.random()` draw `r ∈ [0,1)` made an explicit argument:
`Math.random() * (max - min) + min`, rounded to one decimal place. -/
def generateMockData (dataSourceId : String) (r : ℚ) : ℚ :=
  let range := mockRange dataSourceId
  round1 (r * (range.2 - range.1) + range.1)

/-- A time window `{start, end}` as produced by `getTimeWindow()`
(dashboardStore.js 177-187); `stop` stands for the source's `end` field,
a reserved word here.  Times on the data path are rationals. -/
structure Window where
  start : ℚ
  stop : ℚ
deriving DecidableEq

/-- The `hourly` object of a provider response: a `time` array and one
index-aligned value array per field; values may be null (`none`). -/
structure Hourly where
  time : List ℚ
  fields : List (String × List (Option ℚ))
deriving DecidableEq

/-- The destructuring `const { time: timestamps, [dataSource.field]: values }
= apiData.hourly` (useOpenMeteo line 85): look the field's array up by name. -/
def lookupField (h : Hourly) (field : String) : Option (List (Option ℚ)) :=
  (h.fields.find? (fun p => p.1 == field)).map Prod.snd

/-- The selection loop of `calculateCurrentValue` (useOpenMeteo 93-104):
walk the aligned arrays, keep the value at each index whose timestamp lies
in `[window.start, window.end]` inclusive and whose value is neither null
nor undefined nor NaN (the model's value type has no NaN, so `none` covers
all three discards). -/
def relevantValues (timestamps : List ℚ) (values : List (Option ℚ))
    (w : Window) : List ℚ :=
  (timestamps.zip values).filterMap (fun tv =>
    if w.start ≤ tv.1 ∧ tv.1 ≤ w.stop then tv.2 else none)

/-- The spec's selection rule, in the spec's words: keep exactly the
(timestamp, value) pairs whose timestamp falls within the closed window and
whose value is present, then take the values. -/
def specSelect (timestamps : List ℚ) (values : List (Option ℚ))
    (w : Window) : List ℚ :=
  ((timestamps.zip values).filter
    (fun tv => decide (w.start ≤ tv.1 ∧ tv.1 ≤ w.stop) && tv.2.isSome)).filterMap
    Prod.snd

theorem relevantValues_eq_specSelect (timestamps : List ℚ)
    (values : List (Option ℚ)) (w : Window) :
    relevantValues timestamps values w = specSelect timestamps values w := by
  unfold relevantValues specSelect
  induction timestamps.zip values with
  | nil => rfl
  | cons tv rest ih =>
      rcases tv with ⟨t, v⟩
      by_cases hin : w.start ≤ t ∧ t ≤ w.stop
      · rcases v with _ | v0
        · simpa [hin] using ih
        · simpa [hin] using ih
      · simpa [hin] using ih

/-- Translation of `calculateCurrentValue(apiData, dataSourceId)`
(useOpenMeteo 77-118): unknown data source, missing hourly data, empty
arrays or an empty in-window selection fall back to `generateMockData`;
otherwise the arithmetic mean of the selected values, rounded once to one
decimal place after averaging. -/
def calculateCurrentValue (dataSources : List DataSource) (w : Window)
    (apiData : Option Hourly) (dataSourceId : String) (r : ℚ) : ℚ :=
  match getDataSourceById dataSources dataSourceId, apiData with
  | some ds, some hourly =>
      match lookupField hourly ds.field with
      | none => generateMockData dataSourceId r
      | some values =>
          if hourly.time.isEmpty ∨ values.isEmpty then
            generateMockData dataSourceId r
          else
            let relevant := relevantValues hourly.time values w
            if relevant.isEmpty then generateMockData dataSourceId r
            else round1 (relevant.sum / (relevant.length : ℚ))
  | _, _ => generateMockData dataSourceId r

/-- One entry of the weather-data cache: the raw provider data plus the
`Date.now()` timestamp recorded at `cacheWeatherData` time
(dashboardStore.js 152-159). -/
structure CacheEntry where
  data : Hourly
  timestamp : ℚ
deriving DecidableEq

/-- The `weatherDataCache` Map, as an association list; the key type is a
parameter (the source builds string keys from the rounded coordinates and
the data-source identifier). -/
abbrev WCache (κ : Type) : Type := List (κ × CacheEntry)

/-- `Map.get(key)`. -/
def cacheGet {κ : Type} [DecidableEq κ] (m : WCache κ) (k : κ) :
    Option CacheEntry :=
  (m.find? (fun p => decide (p.1 = k))).map Prod.snd

/-- `Map.set(key, entry)`: replace the entry in place when the key is
present, append otherwise. -/
def cacheSet {κ : Type} [DecidableEq κ] (m : WCache κ) (k : κ)
    (e : CacheEntry) : WCache κ :=
  if (List.find? (fun p => decide (p.1 = k)) m).isSome then
    m.map (fun p => if p.1 = k then (k, e) else p)
  else m ++ [(k, e)]

/-- `Map.delete(key)`. -/
def cacheDelete {κ : Type} [DecidableEq κ] (m : WCache κ) (k : κ) :
    WCache κ :=
  m.filter (fun p => decide (p.1 ≠ k))

theorem cacheGet_set_self {κ : Type} [DecidableEq κ] (m : WCache κ) (k : κ)
    (e : CacheEntry) : cacheGet (cacheSet m k e) k = some e := by
  unfold cacheGet cacheSet
  by_cases hf : (List.find? (fun p => decide (p.1 = k)) m).isSome
  · simp only [hf, if_true]
    induction m with
    | nil => simp at hf
    | cons p rest ih =>
        by_cases hp : p.1 = k
        · simp [List.find?_cons_of_pos, hp]
        · have hf' : (List.find? (fun q => decide (q.1 = k)) rest).isSome := by
            simpa [List.find?_cons_of_neg, hp] using hf
          simpa [List.find?_cons_of_neg, hp] using ih hf'
  · rw [if_neg hf]
    have hnone : List.find? (fun p => decide (p.1 = k)) m = none := by
      cases h : List.find? (fun p => decide (p.1 = k)) m with
      | none => rfl
      | some q => rw [h] at hf; simp at hf
    rw [List.find?_append, hnone]
    simp

theorem cacheGet_delete_self {κ : Type} [DecidableEq κ] (m : WCache κ)
    (k : κ) : cacheGet (cacheDelete m k) k = none := by
  unfold cacheGet cacheDelete
  have : List.find? (fun p => decide (p.1 = k))
      (m.filter (fun p => decide (p.1 ≠ k))) = none := by
    rw [List.find?_eq_none]
    intro x hx
    have hne := List.of_mem_filter hx
    simp only [decide_eq_true_eq] at hne ⊢
    exact hne
  rw [this]
  rfl

/-- `cacheWeatherData(key, data)` (dashboardStore.js 152-159): store the
data with the current timestamp, replacing any prior entry for the key. -/
def cacheWeatherData {κ : Type} [DecidableEq κ] (m : WCache κ) (k : κ)
    (data : Hourly) (now : ℚ) : WCache κ :=
  cacheSet m k ⟨data, now⟩

/-- `getCachedWeatherData(key)` (dashboardStore.js 161-174): absent key
gives null; an entry older than one hour (3600000 ms, strictly) is deleted
and null returned; otherwise the stored data.  The source mutates the
store, so the possibly-updated cache is returned alongside the result. -/
def getCachedWeatherData {κ : Type} [DecidableEq κ] (m : WCache κ) (k : κ)
    (now : ℚ) : Option Hourly × WCache κ :=
  match cacheGet m k with
  | none => (none, m)
  | some cached =>
      if now - cached.timestamp > 3600000 then (none, cacheDelete m k)
      else (some cached.data, m)

/-- `toFixed(4)` as used for the cache key and request coordinates: the
coordinate scaled to 4 decimal places, rounded to an integer numerator. -/
def round4 (x : ℚ) : ℤ := ⌊x * 10000 + 1 / 2⌋

/-- The cache key `lat.toFixed(4) + "_" + lon.toFixed(4) + "_" + dataSourceId`
(useOpenMeteo line 50), modelled as the rounded coordinate pair plus the
identifier. -/
def cacheKey (lat lon : ℚ) (dataSourceId : String) : ℤ × ℤ × String :=
  (round4 lat, round4 lon, dataSourceId)

/-- The request produced by `buildApiUrl` (useOpenMeteo 14-46), reduced to
the fields the engine computes: fixed-precision coordinates and the hourly
field name (the ±15-day date span is independent of the inputs). -/
structure ApiRequest where
  latitude : ℤ
  longitude : ℤ
  hourlyField : String
deriving DecidableEq

/-- The `fieldMapping` dictionary of `buildApiUrl` (useOpenMeteo 26-34):
each listed field maps to itself and `|| dataSource.field` falls back to the
field itself, so the mapping is the identity; spelled out branch by branch. -/
def fieldMapping (field : String) : String :=
  if field = "temperature_2m" then "temperature_2m"
  else if field = "relativehumidity_2m" then "relativehumidity_2m"
  else if field = "precipitation" then "precipitation"
  else if field = "windspeed_10m" then "windspeed_10m"
  else if field = "pressure_msl" then "pressure_msl"
  else field

/-- `buildApiUrl(lat, lon, dataSourceId)` (useOpenMeteo 14-46): throws
(models as `Except.error`) when the data source is unknown, otherwise the
request. -/
def buildApiUrl (dataSources : List DataSource) (lat lon : ℚ)
    (dataSourceId : String) : Except String ApiRequest :=
  match getDataSourceById dataSources dataSourceId with
  | none => .error ("Data source " ++ dataSourceId ++ " not found")
  | some ds => .ok ⟨round4 lat, round4 lon, fieldMapping ds.field⟩

/-- Outcome of the `axios.get` call: a resolved response whose
`data.hourly` is either present or missing (`success none` models a
response failing the `!response.data || !response.data.hourly` check), or a
rejection with an error message. -/
inductive NetOutcome where
  | success (hourly : Option Hourly)
  | failure (msg : String)
deriving DecidableEq

/-- The cache as keyed in the source. -/
abbrev FetchCache : Type := WCache (ℤ × ℤ × String)

/-- The try block of `fetchWeatherData` (useOpenMeteo 49-68): cache lookup,
`buildApiUrl`, the network call, the response-shape check, caching and
aggregation.  Every `throw`/rejection becomes `Except.error`, carrying the
cache as mutated so far. -/
def fetchWeatherDataAux (dataSources : List DataSource) (cache : FetchCache)
    (w : Window) (lat lon : ℚ) (dataSourceId : String) (net : NetOutcome)
    (r : ℚ) (now : ℚ) : Except (String × FetchCache) (ℚ × FetchCache) :=
  let key := cacheKey lat lon dataSourceId
  match getCachedWeatherData cache key now with
  | (some cachedData, cache1) =>
      .ok (calculateCurrentValue dataSources w (some cachedData) dataSourceId r,
        cache1)
  | (none, cache1) =>
      match buildApiUrl dataSources lat lon dataSourceId with
      | .error e => .error (e, cache1)
      | .ok _request =>
          match net with
          | .failure msg => .error (msg, cache1)
          | .success none => .error ("Invalid API response format", cache1)
          | .success (some hourly) =>
              let cache2 := cacheWeatherData cache1 key hourly now
              .ok (calculateCurrentValue dataSources w (some hourly)
                dataSourceId r, cache2)

/-- `fetchWeatherData` (useOpenMeteo 48-75): the try block is
`fetchWeatherDataAux`; the catch-all handler resolves every failure to
`generateMockData`, so the function itself never rejects and its result is
a bare number carrying no synthetic-data flag. -/
def fetchWeatherData (dataSources : List DataSource) (cache : FetchCache)
    (w : Window) (lat lon : ℚ) (dataSourceId : String) (net : NetOutcome)
    (r : ℚ) (now : ℚ) : ℚ × FetchCache :=
  match fetchWeatherDataAux dataSources cache w lat lon dataSourceId net r now with
  | .ok res => res
  | .error (_, cache1) => (generateMockData dataSourceId r, cache1)

/-- A polygon region as read by the fetch pipeline: identifier, vertex
list and assigned data source. -/
structure Polygon where
  id : String
  coordinates : List (ℚ × ℚ)
  dataSource : String
deriving DecidableEq

/-- One element of the array returned by `fetchMultiplePolygons`
(useOpenMeteo 134-160). -/
structure PolyResult where
  polygonId : String
  value : ℚ
  error : Option String
deriving DecidableEq

/-- One polygon's task inside `fetchMultiplePolygons` (useOpenMeteo
135-157): centroid as the coordinate means, then `fetchWeatherData`.  The
catch branch that would record `error.message` is unreachable because
`fetchWeatherData` resolves on every failure, so `error` is always null. -/
def fetchPolygon (dataSources : List DataSource) (cache : FetchCache)
    (w : Window) (p : Polygon) (net : NetOutcome) (r : ℚ) (now : ℚ) :
    PolyResult × FetchCache :=
  let avgLat := (p.coordinates.map Prod.fst).sum / (p.coordinates.length : ℚ)
  let avgLon := (p.coordinates.map Prod.snd).sum / (p.coordinates.length : ℚ)
  let res := fetchWeatherData dataSources cache w avgLat avgLon p.dataSource
    net r now
  (⟨p.id, res.1, none⟩, res.2)

/-- Timeline state slice of the store (dashboardStore.js 9-15).  Times are
whole hours relative to the current instant: `date-fns`'s `addHours` and
`subHours` truncate their amount to an integer, and every time the app ever
stores is the current date shifted by whole hours, so integer hours are
exact. -/
structure TimeState where
  currentTime : ℤ
  rangeStart : ℤ
  rangeEnd : ℤ
  isRangeMode : Bool
  isPlaying : Bool
deriving DecidableEq

/-- `timelineStart = subHours(new Date(), 15 * 24)` (useTimelineState and
TimelineSlider); `now` is the current instant in the same hour scale. -/
def timelineStart (now : ℤ) : ℤ := now - 15 * 24

/-- `timelineEnd = addHours(new Date(), 15 * 24)`. -/
def timelineEnd (now : ℤ) : ℤ := now + 15 * 24

/-- `moveTimeForward(hours)` (useTimelineState 225-251): in range mode,
shift both bounds by `hours` keeping `differenceInHours(end, start)`; a new
end past `timelineEnd` rejects the move, leaves the window untouched and
stops playback.  Instant mode shifts `currentTime` with the same forward
check.  Returns the applied flag and the new state. -/
def moveTimeForward (now : ℤ) (s : TimeState) (hours : ℤ) :
    Bool × TimeState :=
  if s.isRangeMode then
    let duration := s.rangeEnd - s.rangeStart
    let newStart := s.rangeStart + hours
    let newEnd := newStart + duration
    if timelineEnd now < newEnd then (false, { s with isPlaying := false })
    else (true, { s with rangeStart := newStart, rangeEnd := newEnd })
  else
    let newTime := s.currentTime + hours
    if timelineEnd now < newTime then (false, { s with isPlaying := false })
    else (true, { s with currentTime := newTime })

/-- `jumpToTime(targetTime)` (useTimelineState 279-301): rejected outside
`[timelineStart, timelineEnd]`; in range mode the window is moved so that
it starts at the target, keeping its duration, and shifted back against
`timelineEnd` when the new end would overrun; instant mode sets
`currentTime` to the target. -/
def jumpToTime (now : ℤ) (s : TimeState) (targetTime : ℤ) :
    Bool × TimeState :=
  if targetTime < timelineStart now ∨ timelineEnd now < targetTime then
    (false, s)
  else if s.isRangeMode then
    let duration := s.rangeEnd - s.rangeStart
    let newEnd := targetTime + duration
    if timelineEnd now < newEnd then
      (true, { s with rangeStart := timelineEnd now - duration,
                      rangeEnd := timelineEnd now })
    else
      (true, { s with rangeStart := targetTime, rangeEnd := newEnd })
  else (true, { s with currentTime := targetTime })

/-- The `stepForward` click handler of the TimelineSlider component
(TimelineSlider 88-97): shifts the window one hour forward with no boundary
check of any kind. -/
def sliderStepForward (s : TimeState) : TimeState :=
  if s.isRangeMode then
    let duration := s.rangeEnd - s.rangeStart
    let newStart := s.rangeStart + 1
    { s with rangeStart := newStart, rangeEnd := newStart + duration }
  else
    { s with currentTime := s.currentTime + 1 }

/-- Observable state of one region during refresh: the store's current
time window (what `getTimeWindow()` returns) and the polygon's derived
fields written by `updatePolygon` (usePolygons 28-33). -/
structure SysState where
  window : Window
  polyData : Option ℚ
  polyError : Option String
deriving DecidableEq

/-- An event of the refresh pipeline: a window mutation, or the arrival
(resolution) of one refresh batch carrying its generation tag, the fetched
hourly data, the region's data source and the mock draw. -/
inductive REvent where
  | setWindow (w : Window)
  | resolve (gen : ℕ) (hourly : Hourly) (dataSourceId : String) (r : ℚ)
deriving DecidableEq

/-- Whether an event is a batch resolution. -/
def REvent.isResolve : REvent → Bool
  | .setWindow _ => false
  | .resolve _ _ _ _ => true

/-- One step of the pipeline.  A resolving batch is applied exactly as
`refreshAllPolygonData` does (usePolygons 22-35): the value is computed by
`calculateCurrentValue`, which reads the live window through
`getTimeWindow()` at resolution time, and `updatePolygon` overwrites the
region's fields unconditionally — the generation tag is never consulted
(the source has no generation counter), which is why `gen` is unused. -/
def stepEvent (dataSources : List DataSource) (st : SysState) :
    REvent → SysState
  | .setWindow w => { st with window := w }
  | .resolve _gen hourly dataSourceId r =>
      { st with
        polyData := some (calculateCurrentValue dataSources st.window
          (some hourly) dataSourceId r),
        polyError := none }

/-- Run a schedule of interleaved events. -/
def runSchedule (dataSources : List DataSource) (st : SysState)
    (evs : List REvent) : SysState :=
  evs.foldl (stepEvent dataSources) st

theorem find?_congr_of_agree {α : Type} {p q : α → Bool} :
    ∀ {l : List α}, (∀ a ∈ l, p a = q a) → l.find? p = l.find? q := by
  intro l
  induction l with
  | nil => intro _; rfl
  | cons a rest ih =>
      intro h
      have ha : p a = q a := h a (by simp)
      by_cases hp : p a = true
      · have hq : q a = true := by rw [← ha]; exact hp
        rw [List.find?_cons_of_pos rest hp, List.find?_cons_of_pos rest hq]
      · have hq : ¬q a = true := by rw [← ha]; exact hp
        rw [List.find?_cons_of_neg rest hp, List.find?_cons_of_neg rest hq]
        exact ih (fun b hb => h b (by simp [hb]))

/-- Claim C1: for a metric present in the data-source set, a rule list
drawn from the spec's ColorRule model and any numeric value,
`getColorForValue` returns the color of the first rule in list order whose
primary comparison holds and, when a secondary operator is present, whose
secondary comparison also holds (the spec-side predicate `specMatches`,
whose equality operators use exact numeric equality with no epsilon); the
default color `#666666` when no rule matches this condition, and `#666666`
when the value is null/absent. -/
theorem C1_colorFor_first_match (dataSources : List DataSource)
    (sourceId : String) (ds : DataSource) (v : ℚ)
    (hds : getDataSourceById dataSources sourceId = some ds)
    (hwf : ∀ rule ∈ ds.colorRules, wellFormedRule rule = true) :
    (getColorForValue dataSources sourceId (some v) =
      match ds.colorRules.find? (fun rule => specMatches v rule) with
      | some rule => rule.color
      | none => "#666666")
    ∧ getColorForValue dataSources sourceId none = "#666666" := by
  constructor
  · have hfind : ds.colorRules.find? (fun rule => matchesRule v rule)
        = ds.colorRules.find? (fun rule => specMatches v rule) :=
      find?_congr_of_agree
        (fun rule hr => matchesRule_eq_specMatches v rule (hwf rule hr))
    simp only [getColorForValue, hds, hfind]
  · simp only [getColorForValue, hds]

/-- Claim C1 witness: the seeded temperature source at value 17 (the second
compound rule matches first) and at a null value. -/
theorem C1_colorFor_first_match_witness :
    (getColorForValue defaultDataSources "temperature" (some 17) =
      match temperatureSource.colorRules.find?
          (fun rule => specMatches 17 rule) with
      | some rule => rule.color
      | none => "#666666")
    ∧ getColorForValue defaultDataSources "temperature" none = "#666666" :=
  C1_colorFor_first_match defaultDataSources "temperature" temperatureSource
    17 (by decide) (by decide)

/-- Claim C10: rule matching is total over arbitrary operator strings — a
rule whose primary operator is not one of `=`, `==`, `<`, `<=`, `>`, `>=`
never matches, and a rule with a secondary operator present but an
undefined secondary threshold is evaluated exactly as the simple rule with
no secondary clause.  (`matchesRule` and `getColorForValue` are total Lean
functions translated from throw-free source, so `colorFor` cannot throw on
any rule list.) -/
theorem C10_matchesRule_total (v : ℚ) (rule : ColorRule) :
    (rule.operator ∉ (["=", "==", "<", "<=", ">", ">="] : List String) →
      matchesRule v rule = false)
    ∧ (rule.value2 = none →
      matchesRule v rule = matchesRule v { rule with operator2 := none }) := by
  constructor
  · intro hop
    simp only [List.mem_cons, List.not_mem_nil, or_false, not_or] at hop
    obtain ⟨h1, h2, h3, h4, h5, h6⟩ := hop
    have hprim : primaryOp rule.operator v rule.value = false := by
      simp [primaryOp, h1, h2, h3, h4, h5, h6]
    unfold matchesRule
    rcases rule.operator2 with _ | o2 <;> rcases rule.value2 with _ | v2 <;>
      simp [hprim]
  · intro hv2
    unfold matchesRule
    rcases h2 : rule.operator2 with _ | o2 <;> simp [hv2]

/-- Claim C10 witness: an unrecognised operator `!=` never matches, and a
dangling secondary operator with no secondary threshold is evaluated as the
simple rule. -/
theorem C10_matchesRule_total_witness :
    matchesRule 5 ⟨"!=", 5, none, none, "#ffffff"⟩ = false
    ∧ matchesRule 5 ⟨">", 3, some "<", none, "#abcdef"⟩ =
        matchesRule 5
          { (⟨">", 3, some "<", none, "#abcdef"⟩ : ColorRule) with
            operator2 := none } :=
  ⟨(C10_matchesRule_total 5 ⟨"!=", 5, none, none, "#ffffff"⟩).1 (by decide),
    (C10_matchesRule_total 5 ⟨">", 3, some "<", none, "#abcdef"⟩).2 rfl⟩

/-- A concrete provider series used in the aggregation example: values
10, 20, 30 at timestamps fully inside the window [0, 10]. -/
def sampleHourly : Hourly :=
  ⟨[1, 2, 3], [("temperature_2m", [some 10, some 20, some 30])]⟩

/-- Claim C3: the aggregation step selects exactly the (timestamp, value)
pairs with timestamp in `[window.start, window.end]` inclusive and a
non-null value (`specSelect`, the spec's wording); with at least one value
left it returns their arithmetic mean rounded once to one decimal place
after averaging; values 10, 20, 30 inside the window give 20.0; an empty
selection takes the synthetic fallback.  The last three parts show the
single-rounding contract is observable: rounding each value first would
give 0.1 where the code gives 0.0. -/
theorem C3_aggregate_mean (dataSources : List DataSource) (w : Window)
    (hourly : Hourly) (dataSourceId : String) (r : ℚ) (ds : DataSource)
    (values : List (Option ℚ))
    (hds : getDataSourceById dataSources dataSourceId = some ds)
    (hvals : lookupField hourly ds.field = some values)
    (htne : hourly.time ≠ []) (hvne : values ≠ []) :
    (relevantValues hourly.time values w = specSelect hourly.time values w)
    ∧ (relevantValues hourly.time values w ≠ [] →
        calculateCurrentValue dataSources w (some hourly) dataSourceId r =
          round1 ((relevantValues hourly.time values w).sum /
            ((relevantValues hourly.time values w).length : ℚ)))
    ∧ (relevantValues hourly.time values w = [] →
        calculateCurrentValue dataSources w (some hourly) dataSourceId r =
          generateMockData dataSourceId r)
    ∧ calculateCurrentValue defaultDataSources ⟨0, 10⟩ (some sampleHourly)
        "temperature" 0 = 20
    ∧ calculateCurrentValue defaultDataSources ⟨0, 10⟩
        (some ⟨[1, 2], [("temperature_2m", [some (1/25), some (1/20)])]⟩)
        "temperature" 0 = 0
    ∧ round1 ((round1 (1/25) + round1 (1/20)) / 2) = 1/10
    ∧ ((0 : ℚ) ≠ 1/10) := by
  have hA : ¬(hourly.time.isEmpty ∨ values.isEmpty) := by
    simp [List.isEmpty_iff, htne, hvne]
  refine ⟨relevantValues_eq_specSelect _ _ _, ?_, ?_,
    by norm_num [calculateCurrentValue, getDataSourceById, defaultDataSources,
      temperatureSource, humiditySource, precipitationSource, sampleHourly,
      lookupField, relevantValues, round1, List.find?, List.filterMap_cons],
    by norm_num [calculateCurrentValue, getDataSourceById, defaultDataSources,
      temperatureSource, humiditySource, precipitationSource,
      lookupField, relevantValues, round1, List.find?, List.filterMap_cons],
    by norm_num [round1], by norm_num⟩
  · intro hrel
    have hB : ¬((relevantValues hourly.time values w).isEmpty = true) := by
      simp [List.isEmpty_iff, hrel]
    simp only [calculateCurrentValue, hds, hvals, if_neg hA, if_neg hB]
  · intro hrel
    have hB : (relevantValues hourly.time values w).isEmpty = true := by
      simp [List.isEmpty_iff, hrel]
    simp only [calculateCurrentValue, hds, hvals, if_neg hA, if_pos hB]

/-- Claim C3 witness: the concrete series of `sampleHourly` inside window
[0, 10] goes down the mean path. -/
theorem C3_aggregate_mean_witness :
    calculateCurrentValue defaultDataSources ⟨0, 10⟩ (some sampleHourly)
      "temperature" 0 =
      round1 ((relevantValues sampleHourly.time
          [some 10, some 20, some 30] ⟨0, 10⟩).sum /
        ((relevantValues sampleHourly.time
          [some 10, some 20, some 30] ⟨0, 10⟩).length : ℚ)) :=
  (C3_aggregate_mean defaultDataSources ⟨0, 10⟩ sampleHourly "temperature" 0
    temperatureSource [some 10, some 20, some 30] (by decide) (by decide)
    (by decide) (by decide)).2.1 (by decide)

/-- Claim C5: `get` immediately after `put` returns the stored series;
`get` while `now − fetchedAt ≤ 1 hour` (3600000 ms) returns it; `get` after
strictly more than one hour returns absent and evicts the key, which is no
longer present afterwards; `put` replaces any prior entry for the key with
a fresh fetch timestamp. -/
theorem C5_cache_ttl {κ : Type} [DecidableEq κ] (m : WCache κ) (k : κ)
    (data : Hourly) (now now' : ℚ) :
    (getCachedWeatherData (cacheWeatherData m k data now) k now =
      (some data, cacheWeatherData m k data now))
    ∧ (now' - now ≤ 3600000 →
        (getCachedWeatherData (cacheWeatherData m k data now) k now').1 =
          some data)
    ∧ (3600000 < now' - now →
        (getCachedWeatherData (cacheWeatherData m k data now) k now').1 = none
        ∧ cacheGet
            (getCachedWeatherData (cacheWeatherData m k data now) k now').2 k =
          none)
    ∧ cacheGet (cacheWeatherData m k data now) k = some ⟨data, now⟩ := by
  have hget : cacheGet (cacheWeatherData m k data now) k = some ⟨data, now⟩ :=
    cacheGet_set_self m k ⟨data, now⟩
  have hrun : ∀ t : ℚ, getCachedWeatherData (cacheWeatherData m k data now) k t =
      if t - now > 3600000 then
        (none, cacheDelete (cacheWeatherData m k data now) k)
      else (some data, cacheWeatherData m k data now) := by
    intro t
    simp only [getCachedWeatherData, hget]
  refine ⟨?_, ?_, ?_, hget⟩
  · rw [hrun now, if_neg (by norm_num)]
  · intro h
    rw [hrun now', if_neg (by simpa using not_lt.mpr h)]
  · intro h
    rw [hrun now', if_pos (by simpa using h)]
    exact ⟨rfl, cacheGet_delete_self _ _⟩

/-- Claim C5 witness: a fresh entry read back at exactly the TTL boundary
is still served; one millisecond later it is absent. -/
theorem C5_cache_ttl_witness :
    (getCachedWeatherData
        (cacheWeatherData ([] : WCache String) "k" sampleHourly 0) "k"
        3600000).1 = some sampleHourly
    ∧ (getCachedWeatherData
        (cacheWeatherData ([] : WCache String) "k" sampleHourly 0) "k"
        3600001).1 = none :=
  ⟨(C5_cache_ttl ([] : WCache String) "k" sampleHourly 0 3600000).2.1
      (by norm_num),
    ((C5_cache_ttl ([] : WCache String) "k" sampleHourly 0 3600001).2.2.1
      (by norm_num)).1⟩

/-- Claim C6: for a positive hour count, a forward step whose shifted
window would pass the forward horizon returns false and leaves the window
unchanged except that playback becomes inactive; a shift staying within
the horizon is applied (preserving duration in range mode) and true is
returned. -/
theorem C6_stepForward_horizon (now : ℤ) (s : TimeState) (hours : ℤ)
    (hpos : 0 < hours) :
    ((moveTimeForward now s hours).1 = false →
      (moveTimeForward now s hours).2 = { s with isPlaying := false }
      ∧ (if s.isRangeMode then timelineEnd now < s.rangeEnd + hours
         else timelineEnd now < s.currentTime + hours))
    ∧ ((moveTimeForward now s hours).1 = true →
      (if s.isRangeMode then
        (moveTimeForward now s hours).2 =
          { s with rangeStart := s.rangeStart + hours,
                   rangeEnd := s.rangeEnd + hours }
        ∧ s.rangeEnd + hours ≤ timelineEnd now
       else
        (moveTimeForward now s hours).2 =
          { s with currentTime := s.currentTime + hours }
        ∧ s.currentTime + hours ≤ timelineEnd now)) := by
  rcases hrm : s.isRangeMode
  · by_cases hb : timelineEnd now < s.currentTime + hours
    · simp [moveTimeForward, hrm, hb]
    · simp [moveTimeForward, hrm, hb, not_lt.mp hb]
  · have heq : s.rangeStart + hours + (s.rangeEnd - s.rangeStart) =
        s.rangeEnd + hours := by ring
    by_cases hb : timelineEnd now < s.rangeStart + hours +
        (s.rangeEnd - s.rangeStart)
    · have hb' : timelineEnd now < s.rangeEnd + hours := by omega
      simp [moveTimeForward, hrm, hb, hb']
    · have hb' : ¬timelineEnd now < s.rangeEnd + hours := by omega
      have hle : s.rangeEnd + hours ≤ timelineEnd now := by omega
      simp [moveTimeForward, hrm, hb, hb', hle, heq]

/-- Claim C6 witness: at the forward horizon (instant mode, current time
`now + 360` hours), a one-hour step is rejected, the time is unchanged and
playback is switched off. -/
theorem C6_stepForward_horizon_witness :
    (moveTimeForward 0 ⟨360, 0, 24, false, true⟩ 1).2 =
      { currentTime := 360, rangeStart := 0, rangeEnd := 24,
        isRangeMode := false, isPlaying := false }
    ∧ timelineEnd 0 < 360 + 1 :=
  (C6_stepForward_horizon 0 ⟨360, 0, 24, false, true⟩ 1 (by decide)).1
    (by decide)

/-- Claim C7 counterexample: from the range window [0, 10] (duration 10
hours) a jump to t = -100, well inside the ±360-hour horizon and with no
horizon clipping, produces the window [-100, -90]: the window starts at t
instead of being re-centered on it — its midpoint is -95, not t, so the
re-centering the claim states does not happen. -/
theorem C7_recenter_counterexample :
    (jumpToTime 0 ⟨0, 0, 10, true, false⟩ (-100)).1 = true
    ∧ (jumpToTime 0 ⟨0, 0, 10, true, false⟩ (-100)).2.rangeStart = -100
    ∧ (jumpToTime 0 ⟨0, 0, 10, true, false⟩ (-100)).2.rangeEnd = -90
    ∧ (jumpToTime 0 ⟨0, 0, 10, true, false⟩ (-100)).2.rangeStart +
        (jumpToTime 0 ⟨0, 0, 10, true, false⟩ (-100)).2.rangeEnd ≠
        2 * (-100) := by
  decide

/-- Claim C7 (amended): for t inside `[horizonStart, horizonEnd]`,
`jumpTo(t)` succeeds and the resulting window contains t; in range mode the
window is re-anchored to start at t (not re-centered), preserving its
duration, and shifted back against the horizon end when the computed end
would overrun; for t outside the horizon the jump is rejected and the
window unchanged. -/
theorem C7_jumpTo_inside (now : ℤ) (s : TimeState) (t : ℤ)
    (hd : s.rangeStart ≤ s.rangeEnd) :
    ((timelineStart now ≤ t ∧ t ≤ timelineEnd now) →
      (jumpToTime now s t).1 = true
      ∧ (if s.isRangeMode then
          (jumpToTime now s t).2.rangeStart ≤ t
          ∧ t ≤ (jumpToTime now s t).2.rangeEnd
          ∧ (jumpToTime now s t).2.rangeEnd -
              (jumpToTime now s t).2.rangeStart = s.rangeEnd - s.rangeStart
          ∧ (jumpToTime now s t).2.rangeStart =
              (if timelineEnd now < t + (s.rangeEnd - s.rangeStart) then
                timelineEnd now - (s.rangeEnd - s.rangeStart)
              else t)
        else (jumpToTime now s t).2.currentTime = t))
    ∧ ((t < timelineStart now ∨ timelineEnd now < t) →
        jumpToTime now s t = (false, s)) := by
  constructor
  · intro hin
    obtain ⟨h1, h2⟩ := hin
    have hnot : ¬(t < timelineStart now ∨ timelineEnd now < t) := by omega
    rcases hrm : s.isRangeMode
    · simp [jumpToTime, hnot, hrm]
    · by_cases hc : timelineEnd now < t + (s.rangeEnd - s.rangeStart)
      · refine ⟨by simp [jumpToTime, hrm, hnot, hc], ?_⟩
        simp [jumpToTime, hrm, hnot, hc]
        omega
      · refine ⟨by simp [jumpToTime, hrm, hnot, hc], ?_⟩
        simp [jumpToTime, hrm, hnot, hc]
        omega
  · intro hout
    simp [jumpToTime, hout]

/-- Claim C7 witness: a jump to t = 300 from the range window [0, 10]
inside the horizon succeeds, the result [300, 310] contains t, keeps the
10-hour duration and starts at t. -/
theorem C7_jumpTo_inside_witness :
    (jumpToTime 0 ⟨0, 0, 10, true, false⟩ 300).1 = true
    ∧ ((jumpToTime 0 ⟨0, 0, 10, true, false⟩ 300).2.rangeStart ≤ 300
      ∧ (300 : ℤ) ≤ (jumpToTime 0 ⟨0, 0, 10, true, false⟩ 300).2.rangeEnd
      ∧ (jumpToTime 0 ⟨0, 0, 10, true, false⟩ 300).2.rangeEnd -
          (jumpToTime 0 ⟨0, 0, 10, true, false⟩ 300).2.rangeStart = 10 - 0
      ∧ (jumpToTime 0 ⟨0, 0, 10, true, false⟩ 300).2.rangeStart = 300) :=
  (C7_jumpTo_inside 0 ⟨0, 0, 10, true, false⟩ 300 (by decide)).1 (by decide)

/-- Claim C8 (the code violates it): the TimelineSlider's step-forward
button (TimelineSlider 88-97) applies no horizon check.  From the
in-horizon state `currentTime = now + 360` hours — the forward horizon
itself, instant mode — one click moves the window to `now + 361` hours,
outside the global ±15-day horizon, where the guarded
`moveTimeForward` would have refused. -/
theorem C8_slider_step_violates_horizon :
    (timelineStart 0 ≤ (⟨360, 0, 24, false, false⟩ : TimeState).currentTime
      ∧ (⟨360, 0, 24, false, false⟩ : TimeState).currentTime ≤ timelineEnd 0)
    ∧ timelineEnd 0 <
        (sliderStepForward ⟨360, 0, 24, false, false⟩).currentTime
    ∧ (moveTimeForward 0 ⟨360, 0, 24, false, false⟩ 1).1 = false := by
  decide

/-- Series fetched by the first (superseded) refresh call in the
generation-ordering examples. -/
def staleHourly : Hourly := ⟨[1, 2], [("temperature_2m", [some 30, some 40])]⟩

/-- Series fetched by the second (current) refresh call. -/
def freshHourly : Hourly := ⟨[1, 2], [("temperature_2m", [some 10, some 20])]⟩

/-- Claim C2 counterexample: two refresh calls (windows [0,5] then [0,10]),
the second resolving first with `freshHourly` (recorded value 15), the
superseded first resolving last with `staleHourly`.  The code applies the
stale batch on arrival — the final recorded value is 35, not the second
call's 15 — so results from a superseded generation are NOT discarded on
arrival. -/
theorem C2_stale_applied_counterexample :
    runSchedule defaultDataSources ⟨⟨0, 5⟩, none, none⟩
      [REvent.setWindow ⟨0, 5⟩, REvent.setWindow ⟨0, 10⟩,
        REvent.resolve 2 freshHourly "temperature" 0,
        REvent.resolve 1 staleHourly "temperature" 0] =
      { window := ⟨0, 10⟩, polyData := some 35, polyError := none }
    ∧ calculateCurrentValue defaultDataSources ⟨0, 10⟩ (some freshHourly)
        "temperature" 0 = 15
    ∧ ((35 : ℚ) ≠ 15) := by
  refine ⟨?_, ?_, by norm_num⟩
  · norm_num [runSchedule, stepEvent, calculateCurrentValue, getDataSourceById,
      defaultDataSources, temperatureSource, humiditySource,
      precipitationSource, staleHourly, freshHourly, lookupField,
      relevantValues, round1, List.find?, List.filterMap_cons]
  · norm_num [calculateCurrentValue, getDataSourceById, defaultDataSources,
      temperatureSource, humiditySource, precipitationSource, freshHourly,
      lookupField, relevantValues, round1, List.find?, List.filterMap_cons]

theorem runSchedule_resolves (dataSources : List DataSource) :
    ∀ (evs : List REvent) (st : SysState), evs ≠ [] →
      (∀ e ∈ evs, e.isResolve = true) →
      ∃ g hourly dataSourceId r,
        evs.getLast? = some (.resolve g hourly dataSourceId r)
        ∧ runSchedule dataSources st evs =
          { window := st.window,
            polyData := some (calculateCurrentValue dataSources st.window
              (some hourly) dataSourceId r),
            polyError := none } := by
  intro evs
  induction evs with
  | nil => intro st h _; exact absurd rfl h
  | cons e rest ih =>
      intro st _ hall
      have he : e.isResolve = true := hall e (by simp)
      rcases e with w | ⟨g, hourly, dsId, r⟩
      · simp [REvent.isResolve] at he
      · rcases rest with _ | ⟨e2, rest2⟩
        · exact ⟨g, hourly, dsId, r, by simp, by simp [runSchedule, stepEvent]⟩
        · obtain ⟨g', h', d', r', hlast, hrun⟩ :=
            ih (stepEvent dataSources st (.resolve g hourly dsId r))
              (by simp)
              (fun x hx => hall x (List.mem_cons_of_mem _ hx))
          refine ⟨g', h', d', r', ?_, ?_⟩
          · simpa [List.getLast?_cons_cons] using hlast
          · have hw : (stepEvent dataSources st
                (.resolve g hourly dsId r)).window = st.window := rfl
            have : runSchedule dataSources st
                (.resolve g hourly dsId r :: e2 :: rest2) =
              runSchedule dataSources
                (stepEvent dataSources st (.resolve g hourly dsId r))
                (e2 :: rest2) := rfl
            rw [this, hrun, hw]

/-- Claim C2 (amended): the code has no generation counter, so a
superseded call's batch is applied on arrival rather than discarded; but
because `calculateCurrentValue` reads the live window through
`getTimeWindow()` at resolution time, every batch resolving after the
second window change — in whatever order — is aggregated against the
second call's window, so the final recorded value is always computed
against the second (later) window and never the first. -/
theorem C2_second_window_applied (dataSources : List DataSource)
    (st0 : SysState) (w1 w2 : Window) (evs : List REvent)
    (hne : evs ≠ []) (hres : ∀ e ∈ evs, e.isResolve = true) :
    ∃ g hourly dataSourceId r,
      evs.getLast? = some (.resolve g hourly dataSourceId r)
      ∧ runSchedule dataSources st0
          (REvent.setWindow w1 :: REvent.setWindow w2 :: evs) =
        { window := w2,
          polyData := some (calculateCurrentValue dataSources w2 (some hourly)
            dataSourceId r),
          polyError := none } := by
  obtain ⟨g, hourly, dsId, r, hlast, hrun⟩ :=
    runSchedule_resolves dataSources evs
      { window := w2, polyData := st0.polyData, polyError := st0.polyError }
      hne hres
  refine ⟨g, hourly, dsId, r, hlast, ?_⟩
  have hpre : runSchedule dataSources st0
      (REvent.setWindow w1 :: REvent.setWindow w2 :: evs) =
    runSchedule dataSources
      { window := w2, polyData := st0.polyData, polyError := st0.polyError }
      evs := rfl
  rw [hpre, hrun]

/-- Claim C2 witness: a single late-arriving batch from the superseded
call, resolving after both window changes, is recorded against the second
window. -/
theorem C2_second_window_applied_witness :
    ∃ g hourly dataSourceId r,
      ([REvent.resolve 1 staleHourly "temperature" 0].getLast?
        = some (REvent.resolve g hourly dataSourceId r))
      ∧ runSchedule defaultDataSources ⟨⟨0, 5⟩, none, none⟩
          (REvent.setWindow ⟨0, 5⟩ :: REvent.setWindow ⟨0, 10⟩ ::
            [REvent.resolve 1 staleHourly "temperature" 0]) =
        { window := ⟨0, 10⟩,
          polyData := some (calculateCurrentValue defaultDataSources ⟨0, 10⟩
            (some hourly) dataSourceId r),
          polyError := none } :=
  C2_second_window_applied defaultDataSources ⟨⟨0, 5⟩, none, none⟩ ⟨0, 5⟩
    ⟨0, 10⟩ [REvent.resolve 1 staleHourly "temperature" 0] (by decide)
    (by decide)

theorem round1_range {mn mx v : ℚ} (zmn zmx : ℤ)
    (hmn : mn = (zmn : ℚ) / 10) (hmx : mx = (zmx : ℚ) / 10)
    (h1 : mn ≤ v) (h2 : v ≤ mx) : mn ≤ round1 v ∧ round1 v ≤ mx := by
  constructor
  · have hm := round1_mono h1
    rw [hmn, round1_tenth zmn] at hm
    rw [hmn]
    exact hm
  · have hm := round1_mono h2
    rw [hmx, round1_tenth zmx] at hm
    rw [hmx]
    exact hm

theorem generateMockData_range (dataSourceId : String) (r : ℚ)
    (hr0 : 0 ≤ r) (hr1 : r < 1) :
    (mockRange dataSourceId).1 ≤ generateMockData dataSourceId r
    ∧ generateMockData dataSourceId r ≤ (mockRange dataSourceId).2 := by
  have hle : (mockRange dataSourceId).1 ≤ (mockRange dataSourceId).2 := by
    unfold mockRange
    split_ifs <;> norm_num
  have hlow : (mockRange dataSourceId).1 ≤
      r * ((mockRange dataSourceId).2 - (mockRange dataSourceId).1) +
        (mockRange dataSourceId).1 := by
    have := mul_nonneg hr0 (sub_nonneg.mpr hle)
    linarith
  have hhigh : r * ((mockRange dataSourceId).2 - (mockRange dataSourceId).1) +
      (mockRange dataSourceId).1 ≤ (mockRange dataSourceId).2 := by
    have := mul_le_of_le_one_left (sub_nonneg.mpr hle) (le_of_lt hr1)
    linarith
  have hz : ∃ zmn zmx : ℤ, (mockRange dataSourceId).1 = (zmn : ℚ) / 10
      ∧ (mockRange dataSourceId).2 = (zmx : ℚ) / 10 := by
    unfold mockRange
    split_ifs
    · exact ⟨-100, 350, by norm_num, by norm_num⟩
    · exact ⟨300, 900, by norm_num, by norm_num⟩
    · exact ⟨0, 200, by norm_num, by norm_num⟩
    · exact ⟨0, 1000, by norm_num, by norm_num⟩
  obtain ⟨zmn, zmx, hmn, hmx⟩ := hz
  unfold generateMockData
  exact round1_range zmn zmx hmn hmx hlow hhigh

/-- The polygon used in the fetch examples: vertices (0,0), (0,2), (2,0),
centroid (2/3, 2/3), temperature metric. -/
def samplePolygon : Polygon := ⟨"p1", [(0, 0), (0, 2), (2, 0)], "temperature"⟩

/-- Claim C4 counterexample: for the same polygon and window, a failed
fetch (network error, random draw 2/3 giving the synthetic value 20.0) and
a successful fetch of real data averaging 20.0 produce IDENTICAL result
records — value 20, error null, no flag of any kind — so the synthetic
result is not distinguishable to the caller, and the error recorded on the
region in the failure case is null, not the original error text. -/
theorem C4_indistinguishable_counterexample :
    (fetchPolygon defaultDataSources [] ⟨0, 10⟩ samplePolygon
        (.failure "Network Error") (2/3) 0).1 =
      (fetchPolygon defaultDataSources [] ⟨0, 10⟩ samplePolygon
        (.success (some sampleHourly)) (2/3) 0).1
    ∧ (fetchPolygon defaultDataSources [] ⟨0, 10⟩ samplePolygon
        (.failure "Network Error") (2/3) 0).1.error = none := by
  constructor
  · norm_num [fetchPolygon, fetchWeatherData, fetchWeatherDataAux,
      getCachedWeatherData, cacheGet, cacheKey, round4, buildApiUrl,
      getDataSourceById, defaultDataSources, temperatureSource,
      humiditySource, precipitationSource, fieldMapping, cacheWeatherData,
      cacheSet, generateMockData, mockRange, calculateCurrentValue,
      lookupField, relevantValues, round1, sampleHourly, samplePolygon,
      List.find?, List.filterMap_cons]
  · rfl

/-- Claim C4 (amended): on every fetch or validation failure
`fetchWeatherData` resolves — never propagates an exception — to a
synthetic value drawn from the metric-specific range (temperature
[-10,35], humidity [30,90], precipitation [0,20], unrecognised metrics
[0,100]) and rounded to one decimal place; but the synthetic result is a
bare number carrying no flag, and the error recorded on the region stays
null, so it is NOT distinguishable from a real value by the caller. -/
theorem C4_fallback_in_range (dataSources : List DataSource)
    (cache : FetchCache) (w : Window) (lat lon : ℚ) (dataSourceId : String)
    (net : NetOutcome) (r now : ℚ) (e : String) (cache1 : FetchCache)
    (hfail : fetchWeatherDataAux dataSources cache w lat lon dataSourceId net
      r now = .error (e, cache1))
    (hr0 : 0 ≤ r) (hr1 : r < 1) :
    fetchWeatherData dataSources cache w lat lon dataSourceId net r now =
      (generateMockData dataSourceId r, cache1)
    ∧ (mockRange dataSourceId).1 ≤ generateMockData dataSourceId r
    ∧ generateMockData dataSourceId r ≤ (mockRange dataSourceId).2
    ∧ (∃ z : ℤ, generateMockData dataSourceId r = (z : ℚ) / 10)
    ∧ mockRange "temperature" = (-10, 35)
    ∧ mockRange "humidity" = (30, 90)
    ∧ mockRange "precipitation" = (0, 20)
    ∧ (dataSourceId ∉
        (["temperature", "humidity", "precipitation"] : List String) →
        mockRange dataSourceId = (0, 100)) := by
  obtain ⟨hlo, hhi⟩ := generateMockData_range dataSourceId r hr0 hr1
  refine ⟨?_, hlo, hhi, ⟨_, rfl⟩, by simp [mockRange],
    by simp [mockRange], by simp [mockRange], ?_⟩
  · simp only [fetchWeatherData, hfail]
  · intro hnot
    simp only [List.mem_cons, List.not_mem_nil, or_false, not_or] at hnot
    obtain ⟨h1, h2, h3⟩ := hnot
    simp [mockRange, h1, h2, h3]

/-- Claim C4 witness: a plain network failure on the temperature metric
with draw 1/2 resolves to the synthetic value with its range facts. -/
theorem C4_fallback_in_range_witness :
    fetchWeatherData defaultDataSources [] ⟨0, 10⟩ 0 0 "temperature"
        (.failure "Network Error") (1/2) 0 =
      (generateMockData "temperature" (1/2), ([] : FetchCache))
    ∧ (mockRange "temperature").1 ≤ generateMockData "temperature" (1/2) :=
  ⟨(C4_fallback_in_range defaultDataSources [] ⟨0, 10⟩ 0 0 "temperature"
      (.failure "Network Error") (1/2) 0 "Network Error" [] rfl (by norm_num)
      (by norm_num)).1,
    (C4_fallback_in_range defaultDataSources [] ⟨0, 10⟩ 0 0 "temperature"
      (.failure "Network Error") (1/2) 0 "Network Error" [] rfl (by norm_num)
      (by norm_num)).2.1⟩

/-- Claim C9 counterexample: with the unknown identifier "windspeed",
`getColorForValue` quietly returns the default color and `fetchWeatherData`
quietly resolves to a synthetic value — even though `buildApiUrl` raised
the configuration error inside the pipeline (third part), the caller never
sees it. -/
theorem C9_config_error_swallowed_counterexample :
    getColorForValue defaultDataSources "windspeed" (some 5) = "#666666"
    ∧ (fetchWeatherData defaultDataSources [] ⟨0, 10⟩ 0 0 "windspeed"
        (.success (some sampleHourly)) (1/2) 0).1 =
      generateMockData "windspeed" (1/2)
    ∧ fetchWeatherDataAux defaultDataSources [] ⟨0, 10⟩ 0 0 "windspeed"
        (.success (some sampleHourly)) (1/2) 0 =
      .error ("Data source windspeed not found", []) := by
  exact ⟨by decide, rfl, rfl⟩

/-- Claim C9 (amended): the unknown-data-source configuration error is
raised synchronously only inside `buildApiUrl`; `getColorForValue` silently
returns the default color for an unknown metric identifier, and
`fetchWeatherData` catches the `buildApiUrl` error and quietly resolves to
a synthetic value, so neither entry point reports the error to its
caller. -/
theorem C9_unknown_source_error_swallowed (dataSources : List DataSource)
    (cache : FetchCache) (w : Window) (lat lon : ℚ) (id : String) (v : ℚ)
    (net : NetOutcome) (r now : ℚ)
    (hunknown : getDataSourceById dataSources id = none)
    (hmiss : cacheGet cache (cacheKey lat lon id) = none) :
    buildApiUrl dataSources lat lon id =
      .error ("Data source " ++ id ++ " not found")
    ∧ getColorForValue dataSources id (some v) = "#666666"
    ∧ fetchWeatherData dataSources cache w lat lon id net r now =
      (generateMockData id r, cache) := by
  refine ⟨?_, ?_, ?_⟩
  · simp only [buildApiUrl, hunknown]
  · simp only [getColorForValue, hunknown]
  · have haux : fetchWeatherDataAux dataSources cache w lat lon id net r now =
        .error ("Data source " ++ id ++ " not found", cache) := by
      simp only [fetchWeatherDataAux, getCachedWeatherData, hmiss,
        buildApiUrl, hunknown]
    simp only [fetchWeatherData, haux]

/-- Claim C9 witness: the unknown identifier "windspeed" against the
seeded data sources and an empty cache. -/
theorem C9_unknown_source_error_swallowed_witness :
    buildApiUrl defaultDataSources 0 0 "windspeed" =
      .error ("Data source " ++ "windspeed" ++ " not found")
    ∧ getColorForValue defaultDataSources "windspeed" (some 5) = "#666666"
    ∧ fetchWeatherData defaultDataSources [] ⟨0, 10⟩ 0 0 "windspeed"
        (.failure "boom") (1/2) 0 =
      (generateMockData "windspeed" (1/2), []) :=
  C9_unknown_source_error_swallowed defaultDataSources [] ⟨0, 10⟩ 0 0
    "windspeed" 5 (.failure "boom") (1/2) 0 (by decide) rfl
